import Mathlib

/-!
Shallow embedding of the subscription-service repository (Go):
- `internal/repository` (file `src/unnamed/part_001`): dynamic query construction
  for create / getById / update / delete / list / getTotalCost against a
  relational table, modelled here as a list of rows (`Store`).  The SQL
  fragments become explicit predicates and set-clause lists; the table's
  `CHECK (price > 0)` and `PRIMARY KEY` constraints from the migration are
  part of the store model.
- `internal/service/subscription.go`: date parsing, defaults and the
  read-before-write existence checks.
- `internal/handlers` (file `src/unnamed/part_001`): mapping of domain errors
  to HTTP status codes.

Dates: the Go code parses `time.Parse("01-2006", s)` (exactly two month
digits, a dash, exactly four year digits, month 1..12) and only ever stores
first-of-month dates, so a stored date is represented by its calendar month
(`MonthDate`); comparisons on first-of-month `time.Time`/SQL `DATE` values
coincide with comparisons of the linear month index `MonthDate.idx`, and
`AddDate(0,1,0)` on a first-of-month date is `MonthDate.nextMonth`.
UUIDs and timestamps are abstracted as `Nat`.
-/

namespace SubscriptionService

/-- A calendar month: the parser guarantees `1 ≤ month ∧ month ≤ 12`. -/
structure MonthDate where
  year : Nat
  month : Nat
deriving DecidableEq

/-- Linear month index; for months in 1..12 it is order-isomorphic to
lexicographic (year, month) order, which is how the first-of-month SQL
`DATE` values compare. -/
def MonthDate.idx (d : MonthDate) : Nat := d.year * 12 + (d.month - 1)

/-- `time.Time.AddDate(0, 1, 0)` on a first-of-month value: the first of the
following month, rolling December into January of the next year. -/
def MonthDate.nextMonth (d : MonthDate) : MonthDate :=
  if d.month = 12 then ⟨d.year + 1, 1⟩ else ⟨d.year, d.month + 1⟩

/-- Decimal value of an ASCII digit, as used by Go's fixed-width `getnum`. -/
def digitVal (c : Char) : Option Nat :=
  if c.isDigit then some (c.toNat - 48) else none

/-- `time.Parse("01-2006", s)`: exactly two month digits, a literal dash,
exactly four year digits, nothing else; months outside 1..12 are rejected
("month out of range").  Returns the parsed month or `none` on failure. -/
def parseMMYYYY (s : String) : Option MonthDate :=
  match s.data with
  | [m1, m2, '-', y1, y2, y3, y4] =>
    match digitVal m1, digitVal m2, digitVal y1, digitVal y2, digitVal y3, digitVal y4 with
    | some a, some b, some c, some d, some e, some f =>
      let mo := a * 10 + b
      if 1 ≤ mo ∧ mo ≤ 12 then some ⟨c * 1000 + d * 100 + e * 10 + f, mo⟩ else none
    | _, _, _, _, _, _ => none
  | _ => none

/-- A row of the `subscriptions` table (`models.Subscription`). -/
structure Subscription where
  id : Nat
  serviceName : String
  price : Int
  userId : Nat
  startDate : MonthDate
  endDate : Option MonthDate
  createdAt : Nat
  updatedAt : Nat
deriving DecidableEq

/-- The `subscriptions` table. -/
abbrev Store : Type := List Subscription

/-- The errors the repository/service layer can produce (each corresponds to
a distinct Go error value; the handler distinguishes them only by the
"subscription not found" message). -/
inductive SvcError where
  | notFound
  | invalidStartDate
  | invalidEndDate
  | constraintViolation
deriving DecidableEq

/-- `models.UpdateSubscriptionRequest`: every field optional; a present
`endDate` may be the empty string, which is a distinct state from absent. -/
structure UpdateSubscriptionRequest where
  serviceName : Option String
  price : Option Int
  startDate : Option String
  endDate : Option String
deriving DecidableEq

/-- `models.CreateSubscriptionRequest`. -/
structure CreateSubscriptionRequest where
  serviceName : String
  price : Int
  userId : Nat
  startDate : String
  endDate : Option String
deriving DecidableEq

/-- `models.SubscriptionFilter`: the two date fields are raw MM-YYYY text,
parsed inside `GetTotalCost`. -/
structure SubscriptionFilter where
  userId : Option Nat
  serviceName : Option String
  startDate : Option String
  endDate : Option String
deriving DecidableEq

/-! ### SQL `ILIKE` pattern matching

Postgres `ILIKE` matches the whole string against the pattern,
case-insensitively; `%` matches any sequence, `_` any single character, and
backslash is the default escape character: `\X` in the pattern matches the
literal character `X` (so a value-embedded `\%` is a literal percent, and
`\b` simply matches `b`).  A pattern ending in a lone backslash is rejected
by Postgres as invalid; the repository's wrapped pattern `'%' || v || '%'`
always ends in `%` (a trailing backslash in `v` escapes that closing `%`),
so the lone-escape case is unreachable here and is modelled as matching
nothing.  The matcher is written with a fuel argument so that it is
structurally recursive and evaluates inside the kernel; `likeMatch` supplies
sufficient fuel. -/

def likeAux : Nat → List Char → List Char → Bool
  | 0, _, _ => false
  | _ + 1, [], s => s.isEmpty
  | fuel + 1, p :: ps, s =>
    if p = '%' then
      likeAux fuel ps s ||
        (match s with
         | [] => false
         | _ :: cs => likeAux fuel (p :: ps) cs)
    else if p = '\\' then
      match ps with
      | [] => false
      | q :: ps2 =>
        match s with
        | [] => false
        | c :: cs => (q.toLower == c.toLower) && likeAux fuel ps2 cs
    else
      match s with
      | [] => false
      | c :: cs => (if p = '_' then true else p.toLower == c.toLower) && likeAux fuel ps cs

/-- Whole-string case-insensitive LIKE match of `s` against pattern `p`. -/
def likeMatch (p s : List Char) : Bool :=
  likeAux (p.length + s.length + 1) p s

/-- The `'%' || v || '%'` pattern the repository builds around a filter
value. -/
def pctWrap (v : String) : List Char := '%' :: (v.data ++ ['%'])

/-! ### Spec-side string matching (for refinement comparison)

`ciStarts`/`ciContains` are written from the specification's words
"case-insensitive substring match", independently of the ILIKE matcher. -/

def ciStarts : List Char → List Char → Bool
  | [], _ => true
  | _ :: _, [] => false
  | p :: ps, c :: cs => (p.toLower == c.toLower) && ciStarts ps cs

def ciContains (p : List Char) : List Char → Bool
  | [] => ciStarts p []
  | c :: cs => ciStarts p (c :: cs) || ciContains p cs

/-- The filter value contains no LIKE metacharacter: neither the wildcards
`%` and `_` nor the escape character `\`. -/
def noWild (v : List Char) : Bool :=
  v.all (fun c => !(c == '%' || c == '_' || c == '\\'))

/-! ### Persistence Component — `subscriptionRepo`

Each Go method builds a parameterized SQL statement; here each statement's
semantics on the modelled table is given directly.  The migration's
`CHECK (price > 0)` and `PRIMARY KEY (id)` constraints are enforced by the
store on insert/update, producing `constraintViolation` (a
`PersistenceError` in the spec's taxonomy). -/

/-- `subscriptionRepo.Create`: `INSERT INTO subscriptions VALUES (...)`.
The insert fails on a constraint violation (non-positive price, duplicate
primary key); otherwise the row is appended.  Returns the error (if any)
together with the resulting table state. -/
def repoCreate (store : Store) (sub : Subscription) : Option SvcError × Store :=
  if sub.price ≤ 0 then
    (some SvcError.constraintViolation, store)
  else if store.any (fun r => r.id == sub.id) then
    (some SvcError.constraintViolation, store)
  else
    (none, store ++ [sub])

/-- First row with the given id (`WHERE id = $1`; ids are unique in an
actual table, the model takes the first match). -/
def findSub : Store → Nat → Option Subscription
  | [], _ => none
  | r :: rs, id => if r.id == id then some r else findSub rs id

/-- `subscriptionRepo.GetByID`: on `sql.ErrNoRows` the Go code returns
`(nil, nil)` — absence is `ok none`, not an error.  Driver/connectivity
failures are outside the store model, so the error channel of the result
type is never used here (the service layer still has to handle it). -/
def repoGetByID (store : Store) (id : Nat) : Except SvcError (Option Subscription) :=
  Except.ok (findSub store id)

/-- One `SET` assignment of the dynamically built `UPDATE` statement. -/
inductive SetClause where
  | setServiceName (s : String)
  | setPrice (p : Int)
  | setStartDate (d : MonthDate)
  | setEndDateNull
  | setEndDate (d : MonthDate)
  | setUpdatedAt (t : Nat)
deriving DecidableEq

/-- Effect of one `SET` assignment on a row. -/
def applySetClause (r : Subscription) : SetClause → Subscription
  | SetClause.setServiceName s => { r with serviceName := s }
  | SetClause.setPrice p => { r with price := p }
  | SetClause.setStartDate d => { r with startDate := d }
  | SetClause.setEndDateNull => { r with endDate := none }
  | SetClause.setEndDate d => { r with endDate := some d }
  | SetClause.setUpdatedAt t => { r with updatedAt := t }

def applySetClauses (r : Subscription) (cs : List SetClause) : Subscription :=
  cs.foldl applySetClause r

/-- The `start_date = $n` clause of `subscriptionRepo.Update`: present only
when the request supplies a start date, whose text must parse as MM-YYYY
("invalid start date format" otherwise). -/
def startClauses (req : UpdateSubscriptionRequest) : Except SvcError (List SetClause) :=
  match req.startDate with
  | none => Except.ok []
  | some s =>
    match parseMMYYYY s with
    | none => Except.error SvcError.invalidStartDate
    | some d => Except.ok [SetClause.setStartDate d]

/-- The `end_date` clause of `subscriptionRepo.Update`: an explicitly-empty
string becomes `end_date = NULL`; any other supplied text must parse as
MM-YYYY ("invalid end date format" otherwise); absent means no clause. -/
def endClauses (req : UpdateSubscriptionRequest) : Except SvcError (List SetClause) :=
  match req.endDate with
  | none => Except.ok []
  | some s =>
    if s = "" then Except.ok [SetClause.setEndDateNull]
    else
      match parseMMYYYY s with
      | none => Except.error SvcError.invalidEndDate
      | some d => Except.ok [SetClause.setEndDate d]

/-- The full `SET` list built by `subscriptionRepo.Update`, in the source's
order: service_name, price, start_date (parse may fail first), end_date
(parse may fail second), and always `updated_at = now` last.  A parse
failure aborts before any statement is executed. -/
def buildSetClauses (req : UpdateSubscriptionRequest) (now : Nat) :
    Except SvcError (List SetClause) :=
  match startClauses req with
  | Except.error e => Except.error e
  | Except.ok cs =>
    match endClauses req with
    | Except.error e => Except.error e
    | Except.ok ce =>
      Except.ok
        ((match req.serviceName with
          | some s => [SetClause.setServiceName s]
          | none => []) ++
         (match req.price with
          | some p => [SetClause.setPrice p]
          | none => []) ++
         cs ++ ce ++ [SetClause.setUpdatedAt now])

/-- `subscriptionRepo.Update`: build the `SET` list (returning the parse
error, statement unexecuted, on bad date text), then execute
`UPDATE ... WHERE id = $k`.  The table's `CHECK (price > 0)` rejects the
whole statement if an updated row would violate it; a zero-row match is not
an error. -/
def repoUpdate (store : Store) (id : Nat) (req : UpdateSubscriptionRequest) (now : Nat) :
    Option SvcError × Store :=
  match buildSetClauses req now with
  | Except.error e => (some e, store)
  | Except.ok cs =>
    if store.any (fun r => r.id == id && decide ((applySetClauses r cs).price ≤ 0)) then
      (some SvcError.constraintViolation, store)
    else
      (none, store.map (fun r => if r.id == id then applySetClauses r cs else r))

/-- `subscriptionRepo.Delete`: `DELETE FROM subscriptions WHERE id = $1`;
no error when zero rows are affected. -/
def repoDelete (store : Store) (id : Nat) : Option SvcError × Store :=
  (none, store.filter (fun r => !(r.id == id)))

/-- The row predicate of `subscriptionRepo.List`'s dynamically built
`WHERE`: `user_id = $n` when a user filter is present, and
`service_name ILIKE '%' || v || '%'` when a service-name filter is
present; absent fields add no clause. -/
def listRowPred (f : SubscriptionFilter) (r : Subscription) : Bool :=
  (match f.userId with
   | some u => r.userId == u
   | none => true) &&
  (match f.serviceName with
   | some n => likeMatch (pctWrap n) r.serviceName.data
   | none => true)

/-- `subscriptionRepo.List`: the filtered rows, `ORDER BY created_at DESC`
(most recent first). -/
def repoList (store : Store) (f : SubscriptionFilter) : List Subscription :=
  List.insertionSort (fun a b => b.createdAt ≤ a.createdAt)
    (store.filter (listRowPred f))

/-- The row predicate of `subscriptionRepo.GetTotalCost`'s `WHERE`, built in
the source's clause order: `user_id = $n`, `service_name ILIKE $n`,
`start_date >= $n` (filter start parsed first, "invalid start date format"),
and, with `next` the month after the parsed filter end
(`endDate.AddDate(0,1,0)`),
`(start_date < next OR end_date IS NULL OR end_date < next)`
("invalid end date format" on a bad filter end). -/
def totalCostRowPred (f : SubscriptionFilter) : Except SvcError (Subscription → Bool) :=
  match (match f.startDate with
         | none => Except.ok (fun (_ : Subscription) => true)
         | some s =>
           match parseMMYYYY s with
           | none => Except.error SvcError.invalidStartDate
           | some d => Except.ok (fun r => decide (d.idx ≤ r.startDate.idx))) with
  | Except.error e => Except.error e
  | Except.ok startOk =>
    match (match f.endDate with
           | none => Except.ok (fun (_ : Subscription) => true)
           | some s =>
             match parseMMYYYY s with
             | none => Except.error SvcError.invalidEndDate
             | some d =>
               Except.ok (fun r =>
                 decide (r.startDate.idx < d.nextMonth.idx) ||
                 (match r.endDate with
                  | none => true
                  | some e2 => decide (e2.idx < d.nextMonth.idx)))) with
    | Except.error e => Except.error e
    | Except.ok endOk =>
      Except.ok (fun r =>
        (match f.userId with
         | some u => r.userId == u
         | none => true) &&
        (match f.serviceName with
         | some n => likeMatch (pctWrap n) r.serviceName.data
         | none => true) &&
        startOk r && endOk r)

/-- `subscriptionRepo.GetTotalCost`:
`SELECT COALESCE(SUM(price), 0) ... WHERE <clauses>` — the sum of `price`
over the rows matching the built predicate, `0` when none match. -/
def repoGetTotalCost (store : Store) (f : SubscriptionFilter) : Except SvcError Int :=
  match totalCostRowPred f with
  | Except.error e => Except.error e
  | Except.ok p => Except.ok (((store.filter p).map (fun r => r.price)).sum)

/-! ### Domain Logic Component — `subscriptionService` -/

/-- `subscriptionService.CreateSubscription`: parse the MM-YYYY dates
("invalid start/end date format" on failure, nothing stored), build the row
with a fresh id `uid` and `createdAt = updatedAt = now`, and insert it via
the repository. -/
def serviceCreateSubscription (store : Store) (req : CreateSubscriptionRequest)
    (now uid : Nat) : Option SvcError × Store :=
  match parseMMYYYY req.startDate with
  | none => (some SvcError.invalidStartDate, store)
  | some sd =>
    match req.endDate with
    | some es =>
      match parseMMYYYY es with
      | none => (some SvcError.invalidEndDate, store)
      | some ed =>
        repoCreate store ⟨uid, req.serviceName, req.price, req.userId, sd, some ed, now, now⟩
    | none =>
      repoCreate store ⟨uid, req.serviceName, req.price, req.userId, sd, none, now, now⟩

/-- `subscriptionService.GetSubscription`: fetch via the repository;
absence (`ok none`) becomes the distinct "subscription not found" error. -/
def serviceGetSubscription (store : Store) (id : Nat) : Except SvcError Subscription :=
  match repoGetByID store id with
  | Except.error e => Except.error e
  | Except.ok none => Except.error SvcError.notFound
  | Except.ok (some r) => Except.ok r

/-- `subscriptionService.UpdateSubscription`: existence check first (its
error, including not-found, is returned before any mutation), then the
partial update. -/
def serviceUpdateSubscription (store : Store) (id : Nat)
    (req : UpdateSubscriptionRequest) (now : Nat) : Option SvcError × Store :=
  match serviceGetSubscription store id with
  | Except.error e => (some e, store)
  | Except.ok _ => repoUpdate store id req now

/-- `subscriptionService.DeleteSubscription`: same existence-check-then-
delete pattern. -/
def serviceDeleteSubscription (store : Store) (id : Nat) : Option SvcError × Store :=
  match serviceGetSubscription store id with
  | Except.error e => (some e, store)
  | Except.ok _ => repoDelete store id

/-! ### Request Surface — `SubscriptionHandler`

Only the status-code mapping is modelled (JSON binding and id-format checks
happen before these paths and themselves yield 400).  The handlers compare
the root error message with "subscription not found" for 404; every other
service error becomes 500. -/

/-- `SubscriptionHandler.CreateSubscription` after a successful JSON bind:
201 on success, 500 on any service error. -/
def createEndpoint (store : Store) (req : CreateSubscriptionRequest)
    (now uid : Nat) : Nat × Store :=
  match serviceCreateSubscription store req now uid with
  | (some _, s) => (500, s)
  | (none, s) => (201, s)

/-- `SubscriptionHandler.UpdateSubscription` after a valid id and a
successful JSON bind: 200 on success, 404 when the root error is
"subscription not found", 500 otherwise. -/
def updateEndpoint (store : Store) (id : Nat) (req : UpdateSubscriptionRequest)
    (now : Nat) : Nat × Store :=
  match serviceUpdateSubscription store id req now with
  | (some SvcError.notFound, s) => (404, s)
  | (some _, s) => (500, s)
  | (none, s) => (200, s)

/-- `SubscriptionHandler.GetSubscription` after a valid id: 200 with the
record, 404 on "subscription not found", 500 otherwise. -/
def getEndpointStatus (store : Store) (id : Nat) : Nat :=
  match serviceGetSubscription store id with
  | Except.ok _ => 200
  | Except.error SvcError.notFound => 404
  | Except.error _ => 500

/-! ### Spec-side predicates (written from the specification's words, for
refinement comparison with the code-side definitions above) -/

/-- The list-filter predicate as the spec states it: `userId` exact match,
`serviceName` case-insensitive substring match, absent fields impose no
constraint. -/
def specListRowPred (f : SubscriptionFilter) (r : Subscription) : Bool :=
  (match f.userId with
   | some u => r.userId == u
   | none => true) &&
  (match f.serviceName with
   | some n => ciContains n.data r.serviceName.data
   | none => true)

/-- The total-cost row predicate as claim C2 states it: userId exact match,
serviceName substring (case-insensitive, per the spec's list-filter
definition), own startDate on/after the filter's start month, and own
startDate strictly before the month after the filter's end month OR own
endDate null OR own endDate before that boundary. -/
def specTotalMatches (f : SubscriptionFilter) (r : Subscription) : Bool :=
  (match f.userId with
   | some u => r.userId == u
   | none => true) &&
  (match f.serviceName with
   | some n => ciContains n.data r.serviceName.data
   | none => true) &&
  (match f.startDate with
   | none => true
   | some s =>
     match parseMMYYYY s with
     | none => false
     | some d => decide (d.idx ≤ r.startDate.idx)) &&
  (match f.endDate with
   | none => true
   | some s =>
     match parseMMYYYY s with
     | none => false
     | some d =>
       decide (r.startDate.idx < d.nextMonth.idx) ||
       (match r.endDate with
        | none => true
        | some e2 => decide (e2.idx < d.nextMonth.idx)))

/-- The total-cost row predicate with the serviceName condition amended to
the ILIKE pattern the code actually issues; everything else as in
`specTotalMatches`. -/
def amendedTotalMatches (f : SubscriptionFilter) (r : Subscription) : Bool :=
  (match f.userId with
   | some u => r.userId == u
   | none => true) &&
  (match f.serviceName with
   | some n => likeMatch (pctWrap n) r.serviceName.data
   | none => true) &&
  (match f.startDate with
   | none => true
   | some s =>
     match parseMMYYYY s with
     | none => false
     | some d => decide (d.idx ≤ r.startDate.idx)) &&
  (match f.endDate with
   | none => true
   | some s =>
     match parseMMYYYY s with
     | none => false
     | some d =>
       decide (r.startDate.idx < d.nextMonth.idx) ||
       (match r.endDate with
        | none => true
        | some e2 => decide (e2.idx < d.nextMonth.idx)))

end SubscriptionService

namespace SubscriptionService

/-! ### Helper lemmas: the ILIKE matcher agrees with case-insensitive
substring search when the filter value has no metacharacter -/

theorem likeAux_pct_only (s : List Char) :
    ∀ fuel : Nat, s.length + 1 < fuel → likeAux fuel ['%'] s = true := by
  induction s with
  | nil =>
    intro fuel h
    match fuel, h with
    | f + 2, _ => simp [likeAux]
  | cons c cs ih =>
    intro fuel h
    match fuel, h with
    | f + 1, h =>
      simp only [likeAux, List.isEmpty_cons]
      rw [ih f (by simp only [List.length_cons] at h; omega)]
      simp

theorem likeAux_lit (core : List Char) (hw : noWild core = true) :
    ∀ (s : List Char) (fuel : Nat), core.length + s.length + 1 < fuel →
      likeAux fuel (core ++ ['%']) s = ciStarts core s := by
  induction core with
  | nil =>
    intro s fuel h
    simpa [ciStarts] using likeAux_pct_only s fuel (by simpa using h)
  | cons c core ih =>
    simp only [noWild, List.all_cons, Bool.and_eq_true, Bool.not_eq_true',
      Bool.or_eq_false_iff, beq_eq_false_iff_ne, ne_eq] at hw
    obtain ⟨⟨⟨hc1, hc2⟩, hc3⟩, hw'⟩ := hw
    intro s fuel h
    match fuel, h with
    | f + 1, h =>
      cases s with
      | nil => simp [likeAux, ciStarts, if_neg hc1, if_neg hc3]
      | cons x xs =>
        simp only [List.cons_append, likeAux, if_neg hc1, if_neg hc3, if_neg hc2,
          ciStarts, List.append_eq]
        rw [ih hw' xs f (by simp only [List.length_cons] at h ⊢; omega)]

theorem likeAux_wrap (core : List Char) (hw : noWild core = true) :
    ∀ (s : List Char) (fuel : Nat), core.length + s.length + 2 < fuel →
      likeAux fuel ('%' :: (core ++ ['%'])) s = ciContains core s := by
  intro s
  induction s with
  | nil =>
    intro fuel h
    match fuel, h with
    | f + 1, h =>
      simp only [likeAux, if_pos rfl, ciContains]
      rw [likeAux_lit core hw [] f (by simp only [List.length_nil] at h ⊢; omega)]
      simp
  | cons c cs ih =>
    intro fuel h
    match fuel, h with
    | f + 1, h =>
      simp only [likeAux, ciContains]
      rw [likeAux_lit core hw (c :: cs) f
            (by simp only [List.length_cons] at h ⊢; omega),
          ih f (by simp only [List.length_cons] at h; omega)]
      simp

/-- The escape character behaves as in Postgres: for the filter value
`a\b` the issued pattern `%a\b%` matches `xaby` (the escaped `b` is a
literal `b`) and does not match the literal text `xa\by`. -/
theorem likeMatch_escape_behavior :
    likeMatch (pctWrap "a\\b") "xaby".data = true ∧
    likeMatch (pctWrap "a\\b") "xa\\by".data = false ∧
    noWild "a\\b".data = false := by
  exact ⟨by decide, by decide, by decide⟩

/-- On metacharacter-free filter values (no wildcard, no escape), the
`'%'..'%'` ILIKE match the repository issues is exactly case-insensitive
substring search. -/
theorem likeMatch_pctWrap (v : String) (hw : noWild v.data = true) (s : List Char) :
    likeMatch (pctWrap v) s = ciContains v.data s := by
  have h : v.data.length + s.length + 2 < (pctWrap v).length + s.length + 1 := by
    simp only [pctWrap, List.length_cons, List.length_append, List.length_singleton]
    omega
  simpa [likeMatch, pctWrap] using likeAux_wrap v.data hw s _ h

/-! ### Helper lemmas: effect of the dynamically built `UPDATE` statement -/

theorem applySetClause_id (r : Subscription) (c : SetClause) :
    (applySetClause r c).id = r.id := by
  cases c <;> rfl

theorem applySetClauses_id (cs : List SetClause) :
    ∀ r : Subscription, (applySetClauses r cs).id = r.id := by
  induction cs with
  | nil => intro r; rfl
  | cons c cs ih =>
    intro r
    rw [applySetClauses, List.foldl_cons]
    rw [show List.foldl applySetClause (applySetClause r c) cs =
          applySetClauses (applySetClause r c) cs from rfl]
    rw [ih, applySetClause_id]

theorem applySetClauses_append (r : Subscription) (l1 l2 : List SetClause) :
    applySetClauses r (l1 ++ l2) = applySetClauses (applySetClauses r l1) l2 := by
  simp [applySetClauses, List.foldl_append]

/-- The clauses that do not assign `end_date`. -/
def keepsEndDate : SetClause → Bool
  | SetClause.setEndDateNull => false
  | SetClause.setEndDate _ => false
  | _ => true

theorem applySetClause_endDate (r : Subscription) (c : SetClause)
    (h : keepsEndDate c = true) : (applySetClause r c).endDate = r.endDate := by
  cases c <;> first | rfl | simp [keepsEndDate] at h

theorem applySetClauses_endDate (cs : List SetClause)
    (h : cs.all keepsEndDate = true) :
    ∀ r : Subscription, (applySetClauses r cs).endDate = r.endDate := by
  induction cs with
  | nil => intro r; rfl
  | cons c cs ih =>
    simp only [List.all_cons, Bool.and_eq_true] at h
    intro r
    rw [applySetClauses, List.foldl_cons]
    rw [show List.foldl applySetClause (applySetClause r c) cs =
          applySetClauses (applySetClause r c) cs from rfl]
    rw [ih h.2, applySetClause_endDate r c h.1]

/-- `UPDATE ... WHERE id = $k` rewrites exactly the rows with the given id:
looking up the id afterwards finds the transformed row (the transformation
preserves ids). -/
theorem findSub_map_update (store : Store) (id : Nat) (f : Subscription → Subscription)
    (hf : ∀ r, (f r).id = r.id) :
    findSub (store.map (fun r => if r.id == id then f r else r)) id =
      (findSub store id).map f := by
  induction store with
  | nil => rfl
  | cons x xs ih =>
    by_cases hx : (x.id == id) = true
    · have hfx : ((f x).id == id) = true := by rw [hf]; exact hx
      simp only [List.map_cons, if_pos hx, findSub, if_pos hfx, Option.map_some']
    · simp only [List.map_cons, if_neg hx, findSub]
      exact ih

/-! ### Helper lemmas: service-layer existence check -/

theorem serviceGet_of_findSub_some (store : Store) (id : Nat) (r : Subscription)
    (h : findSub store id = some r) :
    serviceGetSubscription store id = Except.ok r := by
  simp [serviceGetSubscription, repoGetByID, h]

theorem serviceGet_of_findSub_none (store : Store) (id : Nat)
    (h : findSub store id = none) :
    serviceGetSubscription store id = Except.error SvcError.notFound := by
  simp [serviceGetSubscription, repoGetByID, h]

/-! ### Helper lemmas: parse failures abort `subscriptionRepo.Update` -/

theorem repoUpdate_startParseFail (store : Store) (id : Nat)
    (req : UpdateSubscriptionRequest) (now : Nat) (s : String)
    (hs : req.startDate = some s) (hp : parseMMYYYY s = none) :
    repoUpdate store id req now = (some SvcError.invalidStartDate, store) := by
  simp only [repoUpdate, buildSetClauses, startClauses, hs, hp]

theorem repoUpdate_endParseFail (store : Store) (id : Nat)
    (req : UpdateSubscriptionRequest) (now : Nat) (s : String)
    (hok : (match req.startDate with
            | some s0 => (parseMMYYYY s0).isSome
            | none => true) = true)
    (hs : req.endDate = some s) (hne : s ≠ "") (hp : parseMMYYYY s = none) :
    repoUpdate store id req now = (some SvcError.invalidEndDate, store) := by
  obtain ⟨cs0, hcs0⟩ : ∃ cs0, startClauses req = Except.ok cs0 := by
    rcases hq : req.startDate with _ | s0
    · exact ⟨[], by simp [startClauses, hq]⟩
    · rw [hq] at hok
      change (parseMMYYYY s0).isSome = true at hok
      rcases hps : parseMMYYYY s0 with _ | d
      · rw [hps] at hok
        simp at hok
      · exact ⟨[SetClause.setStartDate d], by simp [startClauses, hq, hps]⟩
  simp only [repoUpdate, buildSetClauses, hcs0, endClauses, hs, if_neg hne, hp]

/-! ### Helper lemmas: the `CHECK (price > 0)` constraint of the table -/

theorem repoCreate_nonpos (store : Store) (sub : Subscription)
    (hp : sub.price ≤ 0) :
    repoCreate store sub = (some SvcError.constraintViolation, store) := by
  rw [repoCreate, if_pos hp]

theorem repoCreate_price_inv (store : Store) (sub : Subscription)
    (hinv : ∀ r ∈ store, (0 : Int) < r.price) :
    ∀ r ∈ (repoCreate store sub).snd, (0 : Int) < r.price := by
  intro r hr
  by_cases hp : sub.price ≤ 0
  · rw [repoCreate, if_pos hp] at hr
    exact hinv r hr
  · rw [repoCreate, if_neg hp] at hr
    by_cases hd : (store.any fun x => x.id == sub.id) = true
    · rw [if_pos hd] at hr
      exact hinv r hr
    · rw [if_neg hd] at hr
      rcases List.mem_append.mp hr with h | h
      · exact hinv r h
      · rw [List.mem_singleton] at h
        subst h
        exact not_le.mp hp

/-! ### Ordering instances for `ORDER BY created_at DESC` -/

instance : IsTotal Subscription (fun a b => b.createdAt ≤ a.createdAt) :=
  ⟨fun a b => Nat.le_total b.createdAt a.createdAt⟩

instance : IsTrans Subscription (fun a b => b.createdAt ≤ a.createdAt) :=
  ⟨fun _ _ _ h1 h2 => Nat.le_trans h2 h1⟩

/-! ## Claims -/

/-- Claim C6 (confirmed): updating or deleting an id with no matching record
performs the read-before-write existence check first, fails with the
"subscription not found" error before attempting any mutation, and leaves
the store unchanged. -/
theorem missing_id_fails_before_mutation (store : Store) (id : Nat)
    (req : UpdateSubscriptionRequest) (now : Nat)
    (h : findSub store id = none) :
    serviceUpdateSubscription store id req now = (some SvcError.notFound, store) ∧
    serviceDeleteSubscription store id = (some SvcError.notFound, store) := by
  have hg := serviceGet_of_findSub_none store id h
  exact ⟨by simp only [serviceUpdateSubscription, hg],
         by simp only [serviceDeleteSubscription, hg]⟩

theorem missing_id_fails_before_mutation_witness :
    serviceUpdateSubscription [] 1 ⟨none, none, none, none⟩ 0 =
      (some SvcError.notFound, []) ∧
    serviceDeleteSubscription [] 1 = (some SvcError.notFound, []) :=
  missing_id_fails_before_mutation [] 1 ⟨none, none, none, none⟩ 0 rfl

/-- Claim C7 (confirmed): for an id with no matching record the persistence
layer returns the absence sentinel `ok none` (not an error), the domain
layer converts that absence into the "subscription not found" error, and the
HTTP layer maps it to status 404. -/
theorem absent_id_sentinel_to_404 (store : Store) (id : Nat)
    (h : findSub store id = none) :
    repoGetByID store id = Except.ok none ∧
    serviceGetSubscription store id = Except.error SvcError.notFound ∧
    getEndpointStatus store id = 404 := by
  have hg := serviceGet_of_findSub_none store id h
  exact ⟨by rw [repoGetByID, h], hg, by simp only [getEndpointStatus, hg]⟩

theorem absent_id_sentinel_to_404_witness :
    repoGetByID [] 5 = Except.ok none ∧
    serviceGetSubscription [] 5 = Except.error SvcError.notFound ∧
    getEndpointStatus [] 5 = 404 :=
  absent_id_sentinel_to_404 [] 5 rfl

/-- Claim C10 (confirmed): if the persistence-layer update is given a
supplied startDate or endDate whose text fails MM-YYYY parsing, it returns
the parse error before executing any statement, leaving the store entirely
unchanged — whatever other (valid) fields the request also supplies. -/
theorem update_parse_failure_no_mutation (store : Store) (id : Nat)
    (req : UpdateSubscriptionRequest) (now : Nat) :
    (∀ s, req.startDate = some s → parseMMYYYY s = none →
      repoUpdate store id req now = (some SvcError.invalidStartDate, store)) ∧
    ((match req.startDate with
      | some s0 => (parseMMYYYY s0).isSome
      | none => true) = true →
     ∀ s, req.endDate = some s → s ≠ "" → parseMMYYYY s = none →
      repoUpdate store id req now = (some SvcError.invalidEndDate, store)) :=
  ⟨fun s hs hp => repoUpdate_startParseFail store id req now s hs hp,
   fun hok s hs hne hp => repoUpdate_endParseFail store id req now s hok hs hne hp⟩

theorem update_parse_failure_no_mutation_witness :
    repoUpdate [] 1 ⟨some "Netflix", some 12, some "garbage", none⟩ 0 =
      (some SvcError.invalidStartDate, []) ∧
    repoUpdate [] 1 ⟨some "Netflix", some 12, some "01-2024", some "bad"⟩ 0 =
      (some SvcError.invalidEndDate, []) :=
  ⟨(update_parse_failure_no_mutation [] 1 ⟨some "Netflix", some 12, some "garbage", none⟩ 0).1
      "garbage" rfl (by decide),
   (update_parse_failure_no_mutation [] 1 ⟨some "Netflix", some 12, some "01-2024", some "bad"⟩ 0).2
      (by decide) "bad" rfl (by decide) (by decide)⟩

/-- Claim C5 (confirmed): an update that supplies none of serviceName,
price, startDate, endDate still executes a valid statement — the built
`SET` list is the non-empty `updated_at = now` alone — does not fail, and
refreshes `updatedAt` while leaving every other field of the record
unchanged. -/
theorem zero_field_update_safe (store : Store) (id : Nat) (now : Nat)
    (r : Subscription)
    (hinv : ∀ x ∈ store, (0 : Int) < x.price)
    (h : findSub store id = some r) :
    buildSetClauses ⟨none, none, none, none⟩ now =
      Except.ok [SetClause.setUpdatedAt now] ∧
    (serviceUpdateSubscription store id ⟨none, none, none, none⟩ now).fst = none ∧
    findSub (serviceUpdateSubscription store id ⟨none, none, none, none⟩ now).snd id =
      some { r with updatedAt := now } := by
  have hg := serviceGet_of_findSub_some store id r h
  have hany : (store.any fun x => x.id == id &&
      decide ((applySetClauses x [SetClause.setUpdatedAt now]).price ≤ 0)) = false := by
    rw [Bool.eq_false_iff]
    intro hc
    rw [List.any_eq_true] at hc
    obtain ⟨x, hx, hpx⟩ := hc
    rw [Bool.and_eq_true, decide_eq_true_eq] at hpx
    exact absurd hpx.2 (not_le.mpr (hinv x hx))
  have hrepo : repoUpdate store id ⟨none, none, none, none⟩ now =
      (none, store.map fun x =>
        if x.id == id then applySetClauses x [SetClause.setUpdatedAt now] else x) := by
    simp only [repoUpdate,
      show buildSetClauses ⟨none, none, none, none⟩ now =
        Except.ok [SetClause.setUpdatedAt now] from rfl]
    rw [hany]
    simp
  refine ⟨rfl, ?_, ?_⟩
  · simp only [serviceUpdateSubscription, hg, hrepo]
  · simp only [serviceUpdateSubscription, hg, hrepo]
    rw [findSub_map_update store id
          (fun x => applySetClauses x [SetClause.setUpdatedAt now])
          (applySetClauses_id [SetClause.setUpdatedAt now]),
        h, Option.map_some']
    rfl

theorem zero_field_update_safe_witness :
    buildSetClauses ⟨none, none, none, none⟩ 9 =
      Except.ok [SetClause.setUpdatedAt 9] ∧
    (serviceUpdateSubscription [⟨1, "Netflix", 5, 2, ⟨2024, 1⟩, none, 3, 3⟩] 1
        ⟨none, none, none, none⟩ 9).fst = none ∧
    findSub (serviceUpdateSubscription [⟨1, "Netflix", 5, 2, ⟨2024, 1⟩, none, 3, 3⟩] 1
        ⟨none, none, none, none⟩ 9).snd 1 =
      some { (⟨1, "Netflix", 5, 2, ⟨2024, 1⟩, none, 3, 3⟩ : Subscription) with
              updatedAt := 9 } :=
  zero_field_update_safe [⟨1, "Netflix", 5, 2, ⟨2024, 1⟩, none, 3, 3⟩] 1 9
    ⟨1, "Netflix", 5, 2, ⟨2024, 1⟩, none, 3, 3⟩ (by decide) (by decide)

/-- Claim C4 (confirmed): on a successful update of an existing record, a
request supplying endDate as the explicitly-empty string clears the stored
endDate to null (the record becomes ongoing), while a request omitting the
endDate field leaves the stored endDate unchanged — the two input states
are distinguished. -/
theorem end_date_clear_vs_omit (store store' : Store) (id : Nat)
    (req : UpdateSubscriptionRequest) (now : Nat) (r : Subscription)
    (h1 : findSub store id = some r)
    (h2 : serviceUpdateSubscription store id req now = (none, store')) :
    (req.endDate = some "" →
      ∃ r', findSub store' id = some r' ∧ r'.endDate = none) ∧
    (req.endDate = none →
      ∃ r', findSub store' id = some r' ∧ r'.endDate = r.endDate) := by
  have hg := serviceGet_of_findSub_some store id r h1
  simp only [serviceUpdateSubscription, hg] at h2
  rcases hb : buildSetClauses req now with e | cs
  · simp [repoUpdate, hb] at h2
  · simp only [repoUpdate, hb] at h2
    by_cases ha : (store.any fun x => x.id == id &&
        decide ((applySetClauses x cs).price ≤ 0)) = true
    · rw [if_pos ha] at h2
      simp at h2
    · rw [if_neg ha, Prod.mk.injEq] at h2
      obtain ⟨-, hst⟩ := h2
      have hfind : findSub store' id = some (applySetClauses r cs) := by
        rw [← hst, findSub_map_update store id (fun x => applySetClauses x cs)
              (applySetClauses_id cs), h1, Option.map_some']
      rcases hsc : startClauses req with e0 | cs0
      · simp [buildSetClauses, hsc] at hb
      · constructor
        · intro hend
          have hec : endClauses req = Except.ok [SetClause.setEndDateNull] := by
            simp [endClauses, hend]
          simp only [buildSetClauses, hsc, hec, Except.ok.injEq] at hb
          refine ⟨applySetClauses r cs, hfind, ?_⟩
          rw [← hb, applySetClauses_append, applySetClauses_append]
          rfl
        · intro hend
          have hec : endClauses req = Except.ok [] := by
            simp [endClauses, hend]
          simp only [buildSetClauses, hsc, hec, Except.ok.injEq] at hb
          refine ⟨applySetClauses r cs, hfind, ?_⟩
          have hc1 : (match req.serviceName with
                      | some s => [SetClause.setServiceName s]
                      | none => []).all keepsEndDate = true := by
            rcases req.serviceName with _ | s <;> rfl
          have hc2 : (match req.price with
                      | some p => [SetClause.setPrice p]
                      | none => []).all keepsEndDate = true := by
            rcases req.price with _ | p <;> rfl
          have hc0 : cs0.all keepsEndDate = true := by
            rcases hq : req.startDate with _ | s0
            · simp only [startClauses, hq, Except.ok.injEq] at hsc
              rw [← hsc]
              rfl
            · rcases hps : parseMMYYYY s0 with _ | d
              · simp [startClauses, hq, hps] at hsc
              · simp only [startClauses, hq, hps, Except.ok.injEq] at hsc
                rw [← hsc]
                rfl
          rw [← hb]
          apply applySetClauses_endDate
          simp only [List.all_append, Bool.and_eq_true]
          exact ⟨⟨⟨⟨hc1, hc2⟩, hc0⟩, rfl⟩, rfl⟩

theorem end_date_clear_vs_omit_witness :
    (∃ r', findSub [⟨1, "tv", 5, 2, ⟨2024, 1⟩, none, 0, 7⟩] 1 = some r' ∧
      r'.endDate = none) ∧
    (∃ r', findSub [⟨1, "tv", 5, 2, ⟨2024, 1⟩, some ⟨2024, 5⟩, 0, 7⟩] 1 = some r' ∧
      r'.endDate = some ⟨2024, 5⟩) :=
  ⟨(end_date_clear_vs_omit [⟨1, "tv", 5, 2, ⟨2024, 1⟩, some ⟨2024, 5⟩, 0, 0⟩]
      [⟨1, "tv", 5, 2, ⟨2024, 1⟩, none, 0, 7⟩] 1 ⟨none, none, none, some ""⟩ 7
      ⟨1, "tv", 5, 2, ⟨2024, 1⟩, some ⟨2024, 5⟩, 0, 0⟩ (by decide) (by decide)).1 rfl,
   (end_date_clear_vs_omit [⟨1, "tv", 5, 2, ⟨2024, 1⟩, some ⟨2024, 5⟩, 0, 0⟩]
      [⟨1, "tv", 5, 2, ⟨2024, 1⟩, some ⟨2024, 5⟩, 0, 7⟩] 1 ⟨none, none, none, none⟩ 7
      ⟨1, "tv", 5, 2, ⟨2024, 1⟩, some ⟨2024, 5⟩, 0, 0⟩ (by decide) (by decide)).2 rfl⟩

/-- Claim C9 (confirmed): the store-level `CHECK (price > 0)` constraint
keeps every stored row's price strictly positive, and a create request with
a non-positive price fails with the constraint violation (a
`PersistenceError`) leaving the store unchanged — the record is not
stored. -/
theorem price_constraint_enforced (store : Store) (req : CreateSubscriptionRequest)
    (now uid : Nat)
    (hinv : ∀ x ∈ store, (0 : Int) < x.price)
    (hs : (parseMMYYYY req.startDate).isSome = true)
    (he : ∀ s ∈ req.endDate, (parseMMYYYY s).isSome = true) :
    (req.price ≤ 0 → serviceCreateSubscription store req now uid =
      (some SvcError.constraintViolation, store)) ∧
    (∀ x ∈ (serviceCreateSubscription store req now uid).snd, (0 : Int) < x.price) := by
  constructor
  · intro hp
    obtain ⟨sd, hsd⟩ := Option.isSome_iff_exists.mp hs
    rcases hed : req.endDate with _ | es
    · simp only [serviceCreateSubscription, hsd, hed]
      exact repoCreate_nonpos store _ hp
    · obtain ⟨ed, hede⟩ := Option.isSome_iff_exists.mp (he es hed)
      simp only [serviceCreateSubscription, hsd, hed, hede]
      exact repoCreate_nonpos store _ hp
  · intro x hx
    rcases hps : parseMMYYYY req.startDate with _ | sd
    · simp only [serviceCreateSubscription, hps] at hx
      exact hinv x hx
    · rcases hed : req.endDate with _ | es
      · simp only [serviceCreateSubscription, hps, hed] at hx
        exact repoCreate_price_inv store _ hinv x hx
      · rcases hpe : parseMMYYYY es with _ | ed
        · simp only [serviceCreateSubscription, hps, hed, hpe] at hx
          exact hinv x hx
        · simp only [serviceCreateSubscription, hps, hed, hpe] at hx
          exact repoCreate_price_inv store _ hinv x hx

theorem price_constraint_enforced_witness :
    serviceCreateSubscription [] ⟨"TV", -3, 4, "01-2024", none⟩ 0 9 =
      (some SvcError.constraintViolation, []) ∧
    ∀ x ∈ (serviceCreateSubscription [] ⟨"TV", -3, 4, "01-2024", none⟩ 0 9).snd,
      (0 : Int) < x.price :=
  ⟨(price_constraint_enforced [] ⟨"TV", -3, 4, "01-2024", none⟩ 0 9
      (by simp) (by decide) (by simp)).1 (by decide),
   (price_constraint_enforced [] ⟨"TV", -3, 4, "01-2024", none⟩ 0 9
      (by simp) (by decide) (by simp)).2⟩

/-- Claim C3 is false as stated: a create or update request whose date text
fails MM-YYYY parsing is answered with HTTP 500, not 400 — the handlers map
every service-layer error other than "subscription not found" to 500, and
the date-parse failure happens in the service/repository layer, after JSON
binding. -/
theorem bad_date_400_counterexample :
    createEndpoint [] ⟨"TV", 3, 4, "13-2024", none⟩ 0 9 = (500, []) ∧
    (500 : Nat) ≠ 400 :=
  ⟨rfl, by decide⟩

/-- Claim C3 (corrected): for every create or update request whose supplied
startDate or endDate text fails MM-YYYY parsing, the operation fails and the
HTTP response status is 500 (not 400); for update the record must exist,
otherwise the 404 path fires first. -/
theorem bad_date_text_yields_500 (store : Store) (req : CreateSubscriptionRequest)
    (now uid id : Nat) (ureq : UpdateSubscriptionRequest) :
    (parseMMYYYY req.startDate = none →
      createEndpoint store req now uid = (500, store)) ∧
    (∀ es, req.endDate = some es → parseMMYYYY es = none →
      (parseMMYYYY req.startDate).isSome = true →
      createEndpoint store req now uid = (500, store)) ∧
    ((findSub store id).isSome = true →
      ∀ s, ureq.startDate = some s → parseMMYYYY s = none →
      updateEndpoint store id ureq now = (500, store)) ∧
    ((findSub store id).isSome = true →
      (match ureq.startDate with
       | some s0 => (parseMMYYYY s0).isSome
       | none => true) = true →
      ∀ s, ureq.endDate = some s → s ≠ "" → parseMMYYYY s = none →
      updateEndpoint store id ureq now = (500, store)) := by
  refine ⟨?_, ?_, ?_, ?_⟩
  · intro hp
    simp only [createEndpoint, serviceCreateSubscription, hp]
  · intro es hes hpe hps
    obtain ⟨sd, hsd⟩ := Option.isSome_iff_exists.mp hps
    simp only [createEndpoint, serviceCreateSubscription, hsd, hes, hpe]
  · intro hex s hs hp
    obtain ⟨r, hr⟩ := Option.isSome_iff_exists.mp hex
    have hg := serviceGet_of_findSub_some store id r hr
    simp only [updateEndpoint, serviceUpdateSubscription, hg,
      repoUpdate_startParseFail store id ureq now s hs hp]
  · intro hex hok s hs hne hp
    obtain ⟨r, hr⟩ := Option.isSome_iff_exists.mp hex
    have hg := serviceGet_of_findSub_some store id r hr
    simp only [updateEndpoint, serviceUpdateSubscription, hg,
      repoUpdate_endParseFail store id ureq now s hok hs hne hp]

theorem bad_date_text_yields_500_witness :
    createEndpoint [] ⟨"TV", 3, 4, "xx-2024", none⟩ 0 9 = (500, []) ∧
    createEndpoint [] ⟨"TV", 3, 4, "01-2024", some "yy"⟩ 0 9 = (500, []) ∧
    updateEndpoint [⟨1, "tv", 5, 2, ⟨2024, 1⟩, none, 0, 0⟩] 1
      ⟨none, none, some "zz", none⟩ 0 = (500, [⟨1, "tv", 5, 2, ⟨2024, 1⟩, none, 0, 0⟩]) ∧
    updateEndpoint [⟨1, "tv", 5, 2, ⟨2024, 1⟩, none, 0, 0⟩] 1
      ⟨none, none, none, some "qq"⟩ 0 = (500, [⟨1, "tv", 5, 2, ⟨2024, 1⟩, none, 0, 0⟩]) :=
  ⟨(bad_date_text_yields_500 [] ⟨"TV", 3, 4, "xx-2024", none⟩ 0 9 1
      ⟨none, none, none, none⟩).1 (by decide),
   (bad_date_text_yields_500 [] ⟨"TV", 3, 4, "01-2024", some "yy"⟩ 0 9 1
      ⟨none, none, none, none⟩).2.1 "yy" rfl (by decide) (by decide),
   (bad_date_text_yields_500 [⟨1, "tv", 5, 2, ⟨2024, 1⟩, none, 0, 0⟩]
      ⟨"TV", 3, 4, "01-2024", none⟩ 0 9 1 ⟨none, none, some "zz", none⟩).2.2.1
      (by decide) "zz" rfl (by decide),
   (bad_date_text_yields_500 [⟨1, "tv", 5, 2, ⟨2024, 1⟩, none, 0, 0⟩]
      ⟨"TV", 3, 4, "01-2024", none⟩ 0 9 1 ⟨none, none, none, some "qq"⟩).2.2.2
      (by decide) (by decide) "qq" rfl (by decide) (by decide)⟩

/-- Claim C1 is false as stated: with filter startDate=03-2024 and
endDate=05-2024, the built row predicate does NOT accept the ongoing
subscription with own startDate=02-2024 (its startDate is before the
filter's start month, and the claim says it is included), and it DOES
accept the ongoing one with own startDate=06-2024 (the claim says it is
excluded) — so (included, excluded) is not (true, false). -/
theorem window_example_counterexample :
    ¬ (Except.map
        (fun p => (p ⟨1, "Netflix", 10, 1, ⟨2024, 2⟩, none, 0, 0⟩,
                   p ⟨2, "Hulu", 7, 1, ⟨2024, 6⟩, none, 0, 0⟩))
        (totalCostRowPred ⟨none, none, some "03-2024", some "05-2024"⟩)
        = Except.ok (true, false)) := by
  intro h
  have h0 : Except.map
      (fun p => (p ⟨1, "Netflix", 10, 1, ⟨2024, 2⟩, none, 0, 0⟩,
                 p ⟨2, "Hulu", 7, 1, ⟨2024, 6⟩, none, 0, 0⟩))
      (totalCostRowPred ⟨none, none, some "03-2024", some "05-2024"⟩)
      = Except.ok (false, true) := rfl
  rw [h0] at h
  simp at h

/-- Claim C1 (corrected): with filter startDate=03-2024 and endDate=05-2024,
a stored ongoing subscription with its own startDate=02-2024 is EXCLUDED
from the sum (the filter's start clause `start_date >= 03-2024` rejects it),
while an ongoing one with startDate=06-2024 is INCLUDED (it passes the
start clause and its null endDate satisfies the end clause), so the total
over the two rows is 7, the price of the June subscription. -/
theorem window_example_amended :
    Except.map
      (fun p => (p ⟨1, "Netflix", 10, 1, ⟨2024, 2⟩, none, 0, 0⟩,
                 p ⟨2, "Hulu", 7, 1, ⟨2024, 6⟩, none, 0, 0⟩))
      (totalCostRowPred ⟨none, none, some "03-2024", some "05-2024"⟩)
      = Except.ok (false, true) ∧
    repoGetTotalCost
      [⟨1, "Netflix", 10, 1, ⟨2024, 2⟩, none, 0, 0⟩,
       ⟨2, "Hulu", 7, 1, ⟨2024, 6⟩, none, 0, 0⟩]
      ⟨none, none, some "03-2024", some "05-2024"⟩ = Except.ok 7 :=
  ⟨rfl, rfl⟩

/-- Claim C8 is false as stated: `List` issues
`service_name ILIKE '%' || v || '%'`, in which `%` and `_` inside the
supplied value act as wildcards, so with filter value "a%b" the record named
"aXb" is returned although "a%b" is not a (case-insensitive) substring of
"aXb" — the result is not the case-insensitive-substring filtering of the
store. -/
theorem list_substring_counterexample :
    repoList [⟨1, "aXb", 5, 2, ⟨2024, 1⟩, none, 0, 0⟩]
      ⟨none, some "a%b", none, none⟩ ≠
    List.filter (specListRowPred ⟨none, some "a%b", none, none⟩)
      [⟨1, "aXb", 5, 2, ⟨2024, 1⟩, none, 0, 0⟩] := by decide

/-- Claim C8 (corrected): `list` returns exactly the records matching the
filter — userId exact match when supplied, serviceName matched
case-insensitively as the ILIKE pattern `'%' || value || '%'` (in which `%`
and `_` inside the value act as wildcards and `\` as the escape character;
when the value contains none of `%`, `_`, `\`, this is exactly
case-insensitive substring match), absent fields impose no constraint —
ordered by createdAt descending. -/
theorem list_semantics_amended (store : Store) (f : SubscriptionFilter) :
    List.Perm (repoList store f) (store.filter (listRowPred f)) ∧
    List.Sorted (fun a b => b.createdAt ≤ a.createdAt) (repoList store f) ∧
    ((match f.serviceName with
      | some n => noWild n.data
      | none => true) = true →
     ∀ r, listRowPred f r = specListRowPred f r) := by
  refine ⟨List.perm_insertionSort _ _, List.sorted_insertionSort _ _, ?_⟩
  intro hw r
  rcases hn : f.serviceName with _ | n
  · simp [listRowPred, specListRowPred, hn]
  · rw [hn] at hw
    change noWild n.data = true at hw
    simp only [listRowPred, specListRowPred, hn,
      likeMatch_pctWrap n hw r.serviceName.data]

theorem list_semantics_amended_witness :
    List.Perm
      (repoList [⟨1, "Netflix", 10, 7, ⟨2024, 3⟩, none, 4, 4⟩,
                 ⟨2, "NetMovies", 8, 7, ⟨2024, 4⟩, none, 6, 6⟩]
        ⟨some 7, some "net", none, none⟩)
      (List.filter (listRowPred ⟨some 7, some "net", none, none⟩)
        [⟨1, "Netflix", 10, 7, ⟨2024, 3⟩, none, 4, 4⟩,
         ⟨2, "NetMovies", 8, 7, ⟨2024, 4⟩, none, 6, 6⟩]) ∧
    List.Sorted (fun a b => b.createdAt ≤ a.createdAt)
      (repoList [⟨1, "Netflix", 10, 7, ⟨2024, 3⟩, none, 4, 4⟩,
                 ⟨2, "NetMovies", 8, 7, ⟨2024, 4⟩, none, 6, 6⟩]
        ⟨some 7, some "net", none, none⟩) ∧
    (∀ r, listRowPred ⟨some 7, some "net", none, none⟩ r =
      specListRowPred ⟨some 7, some "net", none, none⟩ r) :=
  ⟨(list_semantics_amended _ _).1, (list_semantics_amended _ _).2.1,
   (list_semantics_amended
      [⟨1, "Netflix", 10, 7, ⟨2024, 3⟩, none, 4, 4⟩,
       ⟨2, "NetMovies", 8, 7, ⟨2024, 4⟩, none, 6, 6⟩]
      ⟨some 7, some "net", none, none⟩).2.2 (by decide)⟩

/-- Under parsable filter dates, the predicate `GetTotalCost` builds is
pointwise the direct row predicate `amendedTotalMatches`. -/
theorem totalCostRowPred_ok (f : SubscriptionFilter)
    (hs : ∀ s ∈ f.startDate, (parseMMYYYY s).isSome = true)
    (he : ∀ s ∈ f.endDate, (parseMMYYYY s).isSome = true) :
    totalCostRowPred f = Except.ok (fun r => amendedTotalMatches f r) := by
  rcases hsd : f.startDate with _ | s1
  · rcases hed : f.endDate with _ | s2
    · simp only [totalCostRowPred, hsd, hed]
      exact congrArg Except.ok (funext fun r => by
        simp [amendedTotalMatches, hsd, hed])
    · obtain ⟨d2, hd2⟩ := Option.isSome_iff_exists.mp (he s2 hed)
      simp only [totalCostRowPred, hsd, hed, hd2]
      exact congrArg Except.ok (funext fun r => by
        simp [amendedTotalMatches, hsd, hed, hd2])
  · obtain ⟨d1, hd1⟩ := Option.isSome_iff_exists.mp (hs s1 hsd)
    rcases hed : f.endDate with _ | s2
    · simp only [totalCostRowPred, hsd, hed, hd1]
      exact congrArg Except.ok (funext fun r => by
        simp [amendedTotalMatches, hsd, hed, hd1])
    · obtain ⟨d2, hd2⟩ := Option.isSome_iff_exists.mp (he s2 hed)
      simp only [totalCostRowPred, hsd, hed, hd1, hd2]
      exact congrArg Except.ok (funext fun r => by
        simp [amendedTotalMatches, hsd, hed, hd1, hd2])

/-- On wildcard-free serviceName filters the code's total-cost row predicate
coincides with the spec's (substring) row predicate. -/
theorem amended_eq_spec_of_noWild (f : SubscriptionFilter)
    (hw : (match f.serviceName with
           | some n => noWild n.data
           | none => true) = true) (r : Subscription) :
    amendedTotalMatches f r = specTotalMatches f r := by
  rcases hn : f.serviceName with _ | n
  · simp [amendedTotalMatches, specTotalMatches, hn]
  · rw [hn] at hw
    change noWild n.data = true at hw
    simp only [amendedTotalMatches, specTotalMatches, hn,
      likeMatch_pctWrap n hw r.serviceName.data]

/-- Claim C2 is false as stated: `GetTotalCost` matches serviceName with
`ILIKE '%' || v || '%'`, in which `%` acts as a wildcard, so with filter
value "net%flix" the record named "NetXflix" is counted (sum 10) although
"net%flix" is not a substring of "NetXflix" — the claimed sum over
substring-matching records would be 0. -/
theorem total_cost_claim_counterexample :
    repoGetTotalCost [⟨1, "NetXflix", 10, 7, ⟨2024, 1⟩, none, 0, 0⟩]
      ⟨none, some "net%flix", none, none⟩ = Except.ok 10 ∧
    specTotalMatches ⟨none, some "net%flix", none, none⟩
      ⟨1, "NetXflix", 10, 7, ⟨2024, 1⟩, none, 0, 0⟩ = false ∧
    (10 : Int) ≠ 0 :=
  ⟨rfl, by decide, by decide⟩

/-- Claim C2 (corrected): for every store and every filter whose supplied
dates parse as MM-YYYY, getTotalCost returns the sum of price over exactly
the records satisfying the filter predicate — userId exact match and
serviceName matched case-insensitively as the ILIKE pattern
`'%' || value || '%'` (substring match whenever the value has no `%`/`_`
wildcard and no `\` escape, as the third conjunct states), plus the two
date clauses exactly as the claim words them — and returns `ok 0` (not an
error) when no records match. -/
theorem total_cost_semantics (store : Store) (f : SubscriptionFilter)
    (hs : ∀ s ∈ f.startDate, (parseMMYYYY s).isSome = true)
    (he : ∀ s ∈ f.endDate, (parseMMYYYY s).isSome = true) :
    repoGetTotalCost store f =
      Except.ok (((store.filter (amendedTotalMatches f)).map (fun r => r.price)).sum) ∧
    ((∀ r ∈ store, amendedTotalMatches f r = false) →
      repoGetTotalCost store f = Except.ok 0) ∧
    ((match f.serviceName with
      | some n => noWild n.data
      | none => true) = true →
     repoGetTotalCost store f =
       Except.ok (((store.filter (specTotalMatches f)).map (fun r => r.price)).sum)) := by
  have h1 : repoGetTotalCost store f =
      Except.ok (((store.filter (amendedTotalMatches f)).map (fun r => r.price)).sum) := by
    simp only [repoGetTotalCost, totalCostRowPred_ok f hs he]
  refine ⟨h1, ?_, ?_⟩
  · intro h0
    rw [h1]
    have hnil : store.filter (amendedTotalMatches f) = [] :=
      List.filter_eq_nil_iff.mpr fun a ha => by simp [h0 a ha]
    rw [hnil]
    rfl
  · intro hw
    rw [h1, List.filter_congr fun x _ => amended_eq_spec_of_noWild f hw x]

theorem total_cost_semantics_witness :
    repoGetTotalCost [⟨1, "Netflix", 10, 7, ⟨2024, 3⟩, some ⟨2024, 4⟩, 0, 0⟩]
      ⟨some 7, some "net", some "01-2024", some "12-2024"⟩ =
      Except.ok ((([⟨1, "Netflix", 10, 7, ⟨2024, 3⟩, some ⟨2024, 4⟩, 0, 0⟩] :
          Store).filter
          (amendedTotalMatches ⟨some 7, some "net", some "01-2024", some "12-2024"⟩)).map
          (fun r => r.price)).sum ∧
    repoGetTotalCost [⟨1, "Netflix", 10, 7, ⟨2024, 3⟩, some ⟨2024, 4⟩, 0, 0⟩]
      ⟨some 99, some "net", some "01-2024", some "12-2024"⟩ = Except.ok 0 ∧
    repoGetTotalCost [⟨1, "Netflix", 10, 7, ⟨2024, 3⟩, some ⟨2024, 4⟩, 0, 0⟩]
      ⟨some 7, some "net", some "01-2024", some "12-2024"⟩ =
      Except.ok ((([⟨1, "Netflix", 10, 7, ⟨2024, 3⟩, some ⟨2024, 4⟩, 0, 0⟩] :
          Store).filter
          (specTotalMatches ⟨some 7, some "net", some "01-2024", some "12-2024"⟩)).map
          (fun r => r.price)).sum :=
  ⟨(total_cost_semantics [⟨1, "Netflix", 10, 7, ⟨2024, 3⟩, some ⟨2024, 4⟩, 0, 0⟩]
      ⟨some 7, some "net", some "01-2024", some "12-2024"⟩
      (by intro s hsm; cases hsm; decide) (by intro s hsm; cases hsm; decide)).1,
   (total_cost_semantics [⟨1, "Netflix", 10, 7, ⟨2024, 3⟩, some ⟨2024, 4⟩, 0, 0⟩]
      ⟨some 99, some "net", some "01-2024", some "12-2024"⟩
      (by intro s hsm; cases hsm; decide) (by intro s hsm; cases hsm; decide)).2.1
      (by decide),
   (total_cost_semantics [⟨1, "Netflix", 10, 7, ⟨2024, 3⟩, some ⟨2024, 4⟩, 0, 0⟩]
      ⟨some 7, some "net", some "01-2024", some "12-2024"⟩
      (by intro s hsm; cases hsm; decide) (by intro s hsm; cases hsm; decide)).2.2
      (by decide)⟩

end SubscriptionService
